import Mathlib

/-!
Shallow embedding of the overlay and merge engine of `fill_form.py`
(Bank-Form-Assistance-Agent).  Coordinates and sizes are modelled as
rationals; the character-level word wrap `reportlab.lib.utils.simpleSplit`
is an external library routine, so the renderer is parametrised by the
wrap function (`split`) it calls.  Each draw primitive
(`canvas.drawString` together with the font selected by the preceding
`setFont`) is recorded as one `DrawOp`; the `print` that reports a field
skipped for a missing start or empty value (fill_form.py line 107) is
recorded as a skip message, the engine's only per-field diagnostic.
-/

namespace BankForm

/-- Python `int(q)` on a rational: truncation toward zero. -/
def pyInt (q : ℚ) : ℤ := if q < 0 then ⌈q⌉ else ⌊q⌋

/-- Python `abs(q)`. -/
def pyAbs (q : ℚ) : ℚ := if q < 0 then -q else q

/-- One text-drawing operation of the overlay canvas: position, the string
drawn, and the font name/size in effect at the draw call. -/
structure DrawOp where
  x : ℚ
  y : ℚ
  text : String
  font : String
  size : ℚ
  deriving Repr, DecidableEq

/-- One entry of a form's `form_fields` list (a JSON object with optional
keys, fill_form.py lines 55-61).  `multiline` is the truthiness of the
optional `multiline` key; `type_` is the optional `type` key (read with
default `"text"`). -/
structure Field where
  field : Option String := none
  start : Option (ℚ × ℚ) := none
  end_ : Option (ℚ × ℚ) := none
  value : String := ""
  spacing : Option ℚ := none
  font_size : Option ℚ := none
  bold : Option Bool := none
  type_ : Option String := none
  multiline : Bool := false
  line_spacing : Option ℚ := none
  deriving Repr, DecidableEq

/-- Caller-supplied `pdf_settings` dictionary (fill_form.py lines 46-48);
the color key is not modelled since no draw-op geometry depends on it. -/
structure PdfSettings where
  font_family : Option String := none
  font_size : Option ℚ := none
  bold : Option Bool := none
  deriving Repr, DecidableEq

def DEFAULT_FONT_SIZE : ℚ := 10

def DEFAULT_BOLD : Bool := true

def DEFAULT_FONT_FAMILY : String := "Helvetica"

/-- `resolve_font_name` (fill_form.py lines 30-38). -/
def resolve_font_name (family : String) (bold : Bool) : String :=
  let pair :=
    if family = "Helvetica" then ("Helvetica", "Helvetica-Bold")
    else if family = "Courier" then ("Courier", "Courier-Bold")
    else if family = "Times-Roman" then ("Times-Roman", "Times-Bold")
    else ("Helvetica", "Helvetica-Bold")
  if bold then pair.2 else pair.1

/-- Python truthiness of the optional numeric `spacing` key:
`elif spacing:` is taken iff the key is present and nonzero. -/
def truthy (o : Option ℚ) : Bool :=
  match o with
  | some s => if s = 0 then false else true
  | none => false

/-- The message printed when a field is skipped (fill_form.py line 107). -/
def skip_message (field_name : Option String) : String :=
  "Skipping field '" ++ field_name.getD "None" ++
    "' due to missing coordinates or value."

/-- The body of the `for field in fields` loop of `create_text_overlay`
(fill_form.py lines 54-107) for one field: the draw operations it adds to
the canvas, paired with the skip messages it prints.  `split` stands for
`reportlab.lib.utils.simpleSplit` (arguments: text, font name, font size,
maximum width). -/
def renderField (split : String → String → ℚ → ℚ → List String)
    (global_family : String) (global_size : ℚ) (global_bold : Bool)
    (page_height : ℚ) (field : Field) : List DrawOp × List String :=
  let value := field.value
  let spacing := field.spacing
  let font_size := field.font_size.getD global_size
  let is_bold := field.bold.getD global_bold
  let field_type := field.type_.getD "text"
  match field.start with
  | none => ([], [skip_message field.field])
  | some (x, y) =>
    if value = "" then ([], [skip_message field.field])
    else
      let pdf_y := page_height - y
      let font_name := resolve_font_name global_family is_bold
      if field_type = "checkbox" then
        ([{ x := x, y := pdf_y, text := value, font := "Helvetica-Bold",
            size := font_size }], [])
      else if field.multiline then
        let e := field.end_.getD (x, y)
        let box_width := pyAbs (e.1 - x)
        let box_height := pyAbs (e.2 - y)
        let line_spacing := field.line_spacing.getD (font_size * (13/10))
        let lines := split value font_name font_size box_width
        let max_lines : ℕ :=
          if 0 < box_height then
            (max 1 (pyInt (box_height / line_spacing) + 1)).toNat
          else lines.length
        let shown := lines.take max_lines
        (shown.enum.map (fun p =>
          { x := x, y := pdf_y - (p.1 : ℚ) * line_spacing, text := p.2,
            font := font_name, size := font_size }), [])
      else if truthy spacing then
        let s := spacing.getD 0
        (value.toList.enum.map (fun p =>
          { x := x + (p.1 : ℚ) * s, y := pdf_y, text := String.singleton p.2,
            font := font_name, size := font_size }), [])
      else
        ([{ x := x, y := pdf_y, text := value, font := font_name,
            size := font_size }], [])

/-- `create_text_overlay` (fill_form.py lines 41-111): global style
resolution followed by the field loop; returns all draw operations of the
overlay page together with all skip messages, in field order. -/
def create_text_overlay (split : String → String → ℚ → ℚ → List String)
    (fields : List Field) (page_width page_height : ℚ)
    (pdf_settings : Option PdfSettings) : List DrawOp × List String :=
  let s := pdf_settings.getD {}
  let global_family := s.font_family.getD DEFAULT_FONT_FAMILY
  let global_size := s.font_size.getD DEFAULT_FONT_SIZE
  let global_bold := s.bold.getD DEFAULT_BOLD
  let _ := page_width
  fields.foldr (fun f acc =>
    let r := renderField split global_family global_size global_bold
      page_height f
    (r.1 ++ acc.1, r.2 ++ acc.2)) ([], [])

/-- The coordinate conversion of the spec (§4.2 `toRenderSpace`), the
transform that lines 64-66 of fill_form.py apply to a start point before
drawing: `pdf_y = page_height - y`, `x` unchanged. -/
def toRenderSpace (p : ℚ × ℚ) (page_height : ℚ) : ℚ × ℚ :=
  (p.1, page_height - p.2)

/-- One page of a PDF document, as its content stream of draw operations. -/
structure Page where
  content : List DrawOp
  deriving Repr, DecidableEq

/-- `page.merge_page(overlay_page)`: original content first, overlay drawn
on top. -/
def merge_page (p overlay : Page) : Page :=
  ⟨p.content ++ overlay.content⟩

/-- The output-assembly loop of `fill_pdf_from_chatbot` (fill_form.py
lines 214-217): the overlay is merged onto page 0 only, every other page
is added unchanged. -/
def add_pages (pages : List Page) (overlay : Page) : List Page :=
  pages.enum.map (fun p => if p.1 = 0 then merge_page p.2 overlay else p.2)

/-- One `FormDefinition` entry of the coordinates JSON file. -/
structure Form where
  form_name : Option String := none
  form_fields : Option (List Field) := none
  pdf_path : Option String := none
  deriving Repr, DecidableEq

/-- The lookup loop of `fill_pdf_from_chatbot` (fill_form.py lines
176-180): the first form whose `form_name` equals `form_name` exactly. -/
def find_form (forms : List Form) (form_name : String) : Option Form :=
  forms.find? (fun f => f.form_name == some form_name)

/-- Python `chatbot_values[k]` when `k in chatbot_values`, on a dict
modelled as an association list. -/
def dict_get (d : List (String × String)) (k : String) : Option String :=
  (d.find? (fun p => p.1 == k)).map (fun p => p.2)

/-- The value-injection loop of `fill_pdf_from_chatbot` (fill_form.py
lines 193-196): each field whose name is a key of `chatbot_values` gets
its `value` set to the supplied string. -/
def inject_values (fields : List Field)
    (chatbot_values : List (String × String)) : List Field :=
  fields.map (fun field =>
    match field.field with
    | some name =>
      match dict_get chatbot_values name with
      | some v => { field with value := v }
      | none => field
    | none => field)

/-- `fill_pdf_from_chatbot` (fill_form.py lines 159-224).  The coordinates
source already parsed is `forms`; the source document is `input_pages`
with first-page media box `page_width × page_height`.  Returns `none`
exactly when the code prints "No fields found" and returns `None` (no
match, or the matching form has falsy `form_fields`); otherwise the pages
written to the output document. -/
def fill_pdf_from_chatbot (split : String → String → ℚ → ℚ → List String)
    (chatbot_values : List (String × String)) (forms : List Form)
    (form_name : String) (input_pages : List Page)
    (page_width page_height : ℚ) (pdf_settings : Option PdfSettings) :
    Option (List Page) :=
  match (find_form forms form_name).bind Form.form_fields with
  | none => none
  | some fields =>
    if fields.isEmpty then none
    else
      let fields := inject_values fields chatbot_values
      let overlay : Page :=
        ⟨(create_text_overlay split fields page_width page_height
          pdf_settings).1⟩
      some (add_pages input_pages overlay)

/-- One fill request seen as a state transformer on the persistent
coordinates source: `load_field_coordinates` (fill_form.py line 172)
re-reads and re-parses the JSON file on every call, the file is never
written, and the parsed objects are private to the call, so the state
handed to the next request is the catalog unchanged. -/
def fill_request (split : String → String → ℚ → ℚ → List String)
    (catalog : List Form) (values : List (String × String))
    (form_name : String) (input_pages : List Page)
    (page_width page_height : ℚ) (pdf_settings : Option PdfSettings) :
    Option (List Page) × List Form :=
  (fill_pdf_from_chatbot split values catalog form_name input_pages
    page_width page_height pdf_settings, catalog)

/-- Two sequential fill requests against the same coordinates source with
two different values maps: the second runs on whatever catalog state the
first left behind. -/
def two_fills (split : String → String → ℚ → ℚ → List String)
    (catalog : List Form) (v1 v2 : List (String × String))
    (form_name : String) (input_pages : List Page)
    (page_width page_height : ℚ) (pdf_settings : Option PdfSettings) :
    Option (List Page) × Option (List Page) :=
  let r1 := fill_request split catalog v1 form_name input_pages
    page_width page_height pdf_settings
  let r2 := fill_request split r1.2 v2 form_name input_pages
    page_width page_height pdf_settings
  (r1.1, r2.1)

/-- Whitespace-delimited tokens of a character list (accumulator holds the
current token reversed). -/
def splitWordsAux : List Char → List Char → List String
  | [], acc => if acc.isEmpty then [] else [String.mk acc.reverse]
  | c :: cs, acc =>
    if c = ' ' then
      if acc.isEmpty then splitWordsAux cs []
      else String.mk acc.reverse :: splitWordsAux cs []
    else splitWordsAux cs (c :: acc)

/-- A concrete stand-in for `simpleSplit` used to evaluate the renderer at
concrete inputs: one line per whitespace-delimited token (what `simpleSplit`
returns when every token overflows the box width on its own). -/
def sampleSplit (text : String) (fontName : String) (fontSize maxWidth : ℚ) :
    List String :=
  let _ := fontName
  let _ := fontSize
  let _ := maxWidth
  splitWordsAux text.toList []

/-- Concrete example field from the spec's scenario 1: a plain text
field. -/
def nameField : Field :=
  { field := some "name", start := some (100, 50), value := "12345" }

/-- Concrete example field from the spec's scenario 2 (shortened value):
a spaced-text field. -/
def acctField : Field :=
  { field := some "acct", start := some (50, 100), value := "25",
    spacing := some (37/2) }

/-- Concrete example field from the spec's scenario 3: a bounded
multiline field whose value wraps to 8 tokens. -/
def addrField : Field :=
  { field := some "addr", start := some (50, 200), end_ := some (300, 260),
    value := "a b c d e f g h", multiline := true, line_spacing := some 14 }

/-- Concrete field with a present start but empty value (spec scenario
5). -/
def emptyField : Field :=
  { field := some "acct", start := some (100, 50), value := "" }

/-- Concrete field with a pre-existing value, for the injection claims. -/
def amountField : Field :=
  { field := some "amount", start := some (10, 20), value := "old" }

/-- Concrete multiline field that carries no `end` key. -/
def notesField : Field :=
  { field := some "notes", start := some (50, 200), value := "hello world",
    multiline := true }

/-- Concrete checkbox field that also carries multiline and spacing
attributes, exercising the dispatch precedence (spec scenario 4 plus
extra attributes). -/
def checkboxField : Field :=
  { field := some "agree", start := some (80, 80), value := "X",
    type_ := some "checkbox", multiline := true, spacing := some 5 }

/-- Concrete one-form catalog for the fill-level claims. -/
def payInCatalog : List Form :=
  [{ form_name := some "Pay-in-Slip", form_fields := some [nameField],
     pdf_path := some "forms/Pay-in-Slip.pdf" }]

/-- Concrete two-page source document for the fill-level claims. -/
def twoPages : List Page :=
  [⟨[{ x := 1, y := 2, text := "p0", font := "Helvetica", size := 10 }]⟩,
   ⟨[{ x := 3, y := 4, text := "p1", font := "Helvetica", size := 10 }]⟩]

example :
    (renderField sampleSplit "Helvetica" 10 true 800 nameField).1
      = [{ x := 100, y := 750, text := "12345", font := "Helvetica-Bold",
           size := 10 }] := by
  simp [renderField, nameField, truthy, resolve_font_name]
  norm_num

example :
    ((renderField sampleSplit "Helvetica" 10 true 800 acctField).1).map
      DrawOp.x = [50, 137/2] := by
  simp [renderField, acctField, truthy, resolve_font_name, List.enum,
    List.enumFrom]
  norm_num

example :
    ((renderField sampleSplit "Helvetica" 10 true 800 addrField).1).length
      = 5 := by
  simp [renderField, addrField, truthy, resolve_font_name, sampleSplit,
    splitWordsAux, pyAbs, pyInt]
  norm_num
  decide

lemma head?_enum_map {α β : Type} (f : ℕ × α → β) (l : List α) :
    (l.enum.map f).head? = l.head?.map (fun a => f (0, a)) := by
  cases l <;> rfl

/-- Claim C1: for every point `p = (x, y)` and page height `h`, the
coordinate conversion applied before any draw call yields rendered
`y = h - y` and rendered `x = x`; and for every rendered field, the first
draw operation sits exactly at the converted start coordinate. -/
theorem C1_coordinate_conversion
    (split : String → String → ℚ → ℚ → List String)
    (gf : String) (gs : ℚ) (gb : Bool) (h : ℚ) (f : Field) (x y : ℚ)
    (hst : f.start = some (x, y)) :
    (∀ p : ℚ × ℚ, ∀ ph : ℚ, toRenderSpace p ph = (p.1, ph - p.2)) ∧
    (∀ op : DrawOp, ((renderField split gf gs gb h f).1).head? = some op →
      op.x = (toRenderSpace (x, y) h).1 ∧
      op.y = (toRenderSpace (x, y) h).2) := by
  refine ⟨fun p ph => rfl, ?_⟩
  intro op hop
  simp only [renderField, hst] at hop
  by_cases hv : f.value = ""
  · rw [if_pos hv] at hop
    simp at hop
  · rw [if_neg hv] at hop
    by_cases hcb : f.type_.getD "text" = "checkbox"
    · rw [if_pos hcb] at hop
      simp only [List.head?_cons, Option.some.injEq] at hop
      subst hop
      exact ⟨rfl, rfl⟩
    · rw [if_neg hcb] at hop
      by_cases hml : f.multiline
      · rw [if_pos hml, head?_enum_map] at hop
        rcases Option.map_eq_some'.1 hop with ⟨a, _, rfl⟩
        constructor
        · rfl
        · show h - y - (0 : ℕ) * _ = (toRenderSpace (x, y) h).2
          simp [toRenderSpace]
      · rw [if_neg hml] at hop
        by_cases hsp : truthy f.spacing
        · rw [if_pos hsp, head?_enum_map] at hop
          rcases Option.map_eq_some'.1 hop with ⟨a, _, rfl⟩
          constructor
          · show x + (0 : ℕ) * _ = (toRenderSpace (x, y) h).1
            simp [toRenderSpace]
          · rfl
        · rw [if_neg hsp] at hop
          simp only [List.head?_cons, Option.some.injEq] at hop
          subst hop
          exact ⟨rfl, rfl⟩

/-- Witness for C1 at a concrete field: the spec's first example scenario,
a text field at `(100, 50)` on a page of height `800`. -/
theorem C1_coordinate_conversion_witness :
    nameField.start = some (100, 50) ∧
    (∀ op : DrawOp,
      ((renderField sampleSplit "Helvetica" 10 true 800
        nameField).1).head? = some op →
      op.x = (toRenderSpace (100, 50) 800).1 ∧
      op.y = (toRenderSpace (100, 50) 800).2) :=
  ⟨rfl, (C1_coordinate_conversion sampleSplit "Helvetica" 10 true 800
    nameField 100 50 rfl).2⟩

/-- Claim C3: a spaced-text field with start `(x, y)`, spacing `s > 0` and
value of length `n` produces exactly `n` draw operations; operation `i`
draws the single character `i` of the value at `x + i*s`, and all
operations share the converted `y` coordinate `h - y`. -/
theorem C3_spacing_law
    (split : String → String → ℚ → ℚ → List String)
    (gf : String) (gs : ℚ) (gb : Bool) (h : ℚ) (f : Field) (x y s : ℚ)
    (hst : f.start = some (x, y)) (hv : f.value ≠ "")
    (hty : f.type_.getD "text" ≠ "checkbox") (hml : f.multiline = false)
    (hsp : f.spacing = some s) (hs : 0 < s) :
    ((renderField split gf gs gb h f).1).length = f.value.toList.length ∧
    ∀ i (hi : i < ((renderField split gf gs gb h f).1).length)
      (hi2 : i < f.value.toList.length),
      ((renderField split gf gs gb h f).1)[i] =
        { x := x + (i : ℚ) * s, y := h - y,
          text := String.singleton (f.value.toList[i]),
          font := resolve_font_name gf (f.bold.getD gb),
          size := f.font_size.getD gs } := by
  have htr : truthy (some s) = true := by
    simp [truthy, hs.ne']
  have hred : (renderField split gf gs gb h f).1 =
      f.value.toList.enum.map (fun p =>
        { x := x + (p.1 : ℚ) * s, y := h - y,
          text := String.singleton p.2,
          font := resolve_font_name gf (f.bold.getD gb),
          size := f.font_size.getD gs }) := by
    simp only [renderField, hst]
    rw [if_neg hv, if_neg hty]
    rw [hml]
    simp only [Bool.false_eq_true, if_false, htr, if_true, hsp, Option.getD_some]
  rw [hred]
  constructor
  · simp
  · intro i hi hi2
    simp only [List.getElem_map, List.getElem_enum]

/-- Witness for C3: the spec's second example scenario, a spaced field at
`(50, 100)` with spacing `18.5` and a two-character value. -/
theorem C3_spacing_law_witness :
    ((renderField sampleSplit "Helvetica" 10 true 800
      acctField).1).length = acctField.value.toList.length ∧
    ∀ i (hi : i < ((renderField sampleSplit "Helvetica" 10 true 800
      acctField).1).length)
      (hi2 : i < acctField.value.toList.length),
      ((renderField sampleSplit "Helvetica" 10 true 800 acctField).1)[i] =
        { x := 50 + (i : ℚ) * (37/2), y := 800 - 100,
          text := String.singleton (acctField.value.toList[i]),
          font := resolve_font_name "Helvetica" (acctField.bold.getD true),
          size := acctField.font_size.getD 10 } :=
  C3_spacing_law sampleSplit "Helvetica" 10 true 800 acctField
    50 100 (37/2) rfl (by decide) (by decide) rfl rfl (by norm_num)

/-- Claim C4, counterexample: a field with empty value but present start
produces zero draw operations, yet the claim's "zero diagnostics" part is
false — the loop prints the skip message of fill_form.py line 107 for it. -/
theorem C4_counterexample :
    (renderField sampleSplit "Helvetica" 10 true 800 emptyField).1 = []
    ∧ (renderField sampleSplit "Helvetica" 10 true 800 emptyField).2
        ≠ [] := by
  constructor <;> simp [renderField, emptyField, skip_message]

/-- Claim C4 as amended: a field with empty value or absent start produces
zero draw operations, and exactly one skip diagnostic (the printed skip
message) is emitted for it. -/
theorem C4_empty_value_skip
    (split : String → String → ℚ → ℚ → List String)
    (gf : String) (gs : ℚ) (gb : Bool) (h : ℚ) (f : Field)
    (hskip : f.value = "" ∨ f.start = none) :
    renderField split gf gs gb h f = ([], [skip_message f.field]) := by
  rcases hskip with hv | hst
  · cases hs : f.start with
    | none => simp [renderField, hs]
    | some p =>
      obtain ⟨x, y⟩ := p
      simp [renderField, hs, hv]
  · simp [renderField, hst]

/-- Witness for C4's amended theorem at a concrete empty-value field. -/
theorem C4_empty_value_skip_witness :
    (emptyField.value = "" ∨ emptyField.start = none) ∧
    renderField sampleSplit "Helvetica" 10 true 800 emptyField
      = ([], [skip_message emptyField.field]) :=
  ⟨Or.inl rfl,
    C4_empty_value_skip sampleSplit "Helvetica" 10 true 800 emptyField
      (Or.inl rfl)⟩

/-- Claim C7, counterexample: injection has no non-empty check — a field
whose supplied value is the empty string does not keep its previous value
`"old"`; its value becomes `""` (fill_form.py line 196 assigns
unconditionally). -/
theorem C7_counterexample :
    (inject_values [amountField] [("amount", "")]).map Field.value = [""] ∧
    ¬ ((inject_values [amountField] [("amount", "")]).map Field.value
        = ["old"]) := by
  constructor <;> simp [inject_values, amountField, dict_get, List.find?]

/-- Claim C7 as amended: during value injection, a field whose name is a
key of the supplied values map has its value set to the supplied string
unconditionally — including when that string is empty. -/
theorem C7_injection_overwrites
    (fields : List Field) (values : List (String × String)) (i : ℕ)
    (hi : i < (inject_values fields values).length)
    (hi2 : i < fields.length) (n v : String)
    (hn : (fields[i]).field = some n)
    (hv : dict_get values n = some v) :
    ((inject_values fields values)[i]).value = v := by
  simp [inject_values, hn, hv]

/-- Witness for C7's amended theorem: the supplied value is the empty
string and it still overwrites. -/
theorem C7_injection_overwrites_witness :
    (([amountField] : List Field)[0]).field = some "amount" ∧
    dict_get [("amount", "")] "amount" = some "" ∧
    ((inject_values [amountField] [("amount", "")])[0]).value = "" :=
  ⟨rfl, rfl,
    C7_injection_overwrites [amountField] [("amount", "")] 0
      (by simp [inject_values]) (by simp) "amount" "" rfl rfl⟩

/-- Claim C2: for a multiline field with end point present, box height
`H = |end.y - start.y| > 0` and positive line spacing `L` (the
`line_spacing` key, defaulting to `1.3 × font_size`), the number of lines
drawn is `min(wrapped_line_count, floor(H/L) + 1)`; when `H = 0` every
wrapped line is drawn; in both cases the excess lines are dropped with no
diagnostic. -/
theorem C2_wrap_bound
    (split : String → String → ℚ → ℚ → List String)
    (gf : String) (gs : ℚ) (gb : Bool) (h : ℚ) (f : Field)
    (x y ex ey H L W : ℚ)
    (hst : f.start = some (x, y)) (hend : f.end_ = some (ex, ey))
    (hv : f.value ≠ "") (hty : f.type_.getD "text" ≠ "checkbox")
    (hml : f.multiline = true)
    (hH : H = pyAbs (ey - y)) (hW : W = pyAbs (ex - x))
    (hL : L = f.line_spacing.getD ((f.font_size.getD gs) * (13/10)))
    (hLpos : 0 < L) :
    ((0 < H →
      ((renderField split gf gs gb h f).1).length =
        min (split f.value (resolve_font_name gf (f.bold.getD gb))
          (f.font_size.getD gs) W).length ((⌊H / L⌋).toNat + 1)) ∧
     (H = 0 →
      ((renderField split gf gs gb h f).1).length =
        (split f.value (resolve_font_name gf (f.bold.getD gb))
          (f.font_size.getD gs) W).length)) ∧
    (renderField split gf gs gb h f).2 = [] := by
  subst hH
  subst hW
  subst hL
  have hred : renderField split gf gs gb h f =
      (((split f.value (resolve_font_name gf (f.bold.getD gb))
          (f.font_size.getD gs) (pyAbs (ex - x))).take
        (if 0 < pyAbs (ey - y) then
          (max 1 (pyInt (pyAbs (ey - y) /
            f.line_spacing.getD ((f.font_size.getD gs) * (13/10))) + 1)).toNat
         else (split f.value (resolve_font_name gf (f.bold.getD gb))
          (f.font_size.getD gs) (pyAbs (ex - x))).length)).enum.map (fun p =>
        { x := x, y := h - y - (p.1 : ℚ) *
            f.line_spacing.getD ((f.font_size.getD gs) * (13/10)),
          text := p.2, font := resolve_font_name gf (f.bold.getD gb),
          size := f.font_size.getD gs }), []) := by
    simp only [renderField, hst, hend, Option.getD_some]
    rw [if_neg hv, if_neg hty, hml]
    simp
  rw [hred]
  refine ⟨⟨?_, ?_⟩, rfl⟩
  · intro hHpos
    rw [if_pos hHpos]
    have hqnn : ¬ (pyAbs (ey - y) /
        f.line_spacing.getD ((f.font_size.getD gs) * (13/10)) < 0) := by
      push_neg
      exact div_nonneg hHpos.le hLpos.le
    have hfl : 0 ≤ ⌊pyAbs (ey - y) /
        f.line_spacing.getD ((f.font_size.getD gs) * (13/10))⌋ :=
      Int.floor_nonneg.2 (not_lt.1 hqnn)
    rw [pyInt, if_neg hqnn]
    simp only [List.length_map, List.enum_length, List.length_take]
    rw [Nat.min_comm]
    congr 1
    omega
  · intro hH0
    rw [hH0]
    simp

/-- Witness for C2: the spec's third example scenario — box height `60`,
line spacing `14`, a value wrapping to 8 lines, of which
`min(8, floor(60/14) + 1) = 5` are drawn. -/
theorem C2_wrap_bound_witness :
    ((0 < (60 : ℚ) →
      ((renderField sampleSplit "Helvetica" 10 true 800 addrField).1).length
        = min (sampleSplit addrField.value
            (resolve_font_name "Helvetica" (addrField.bold.getD true))
            (addrField.font_size.getD 10) 250).length
          ((⌊(60 : ℚ) / 14⌋).toNat + 1)) ∧
     ((60 : ℚ) = 0 →
      ((renderField sampleSplit "Helvetica" 10 true 800 addrField).1).length
        = (sampleSplit addrField.value
            (resolve_font_name "Helvetica" (addrField.bold.getD true))
            (addrField.font_size.getD 10) 250).length)) ∧
    (renderField sampleSplit "Helvetica" 10 true 800 addrField).2 = [] :=
  C2_wrap_bound sampleSplit "Helvetica" 10 true 800 addrField
    50 200 300 260 60 14 250 rfl rfl (by decide) (by decide) rfl
    (by norm_num [pyAbs]) (by norm_num [pyAbs]) rfl (by norm_num)

/-- Claim C8, counterexample: a multiline field with non-empty value and
no end point is not skipped and no diagnostic is emitted — draw operations
are produced for it. -/
theorem C8_counterexample :
    (renderField sampleSplit "Helvetica" 10 true 800 notesField).1 ≠ []
    ∧ (renderField sampleSplit "Helvetica" 10 true 800 notesField).2
        = [] := by
  constructor <;>
    simp [renderField, notesField, truthy, resolve_font_name, sampleSplit,
      splitWordsAux, pyAbs, pyInt]

/-- Claim C8 as amended: a multiline field with non-empty value and no end
point is rendered, not skipped — the end point defaults to the start, the
bounding box degenerates to width and height `0`, every line of the
width-0 wrap of the value is drawn, and no diagnostic is emitted (the fill
proceeds normally). -/
theorem C8_multiline_without_end
    (split : String → String → ℚ → ℚ → List String)
    (gf : String) (gs : ℚ) (gb : Bool) (h : ℚ) (f : Field) (x y : ℚ)
    (hst : f.start = some (x, y)) (hv : f.value ≠ "")
    (hty : f.type_.getD "text" ≠ "checkbox") (hml : f.multiline = true)
    (hend : f.end_ = none) :
    ((renderField split gf gs gb h f).1).length =
      (split f.value (resolve_font_name gf (f.bold.getD gb))
        (f.font_size.getD gs) 0).length
    ∧ (renderField split gf gs gb h f).2 = [] := by
  have habs0 : pyAbs 0 = 0 := by
    rw [pyAbs, if_neg (lt_irrefl 0)]
  have hred : renderField split gf gs gb h f =
      (((split f.value (resolve_font_name gf (f.bold.getD gb))
          (f.font_size.getD gs) 0).take
        (split f.value (resolve_font_name gf (f.bold.getD gb))
          (f.font_size.getD gs) 0).length).enum.map (fun p =>
        { x := x, y := h - y - (p.1 : ℚ) *
            f.line_spacing.getD ((f.font_size.getD gs) * (13/10)),
          text := p.2, font := resolve_font_name gf (f.bold.getD gb),
          size := f.font_size.getD gs }), []) := by
    simp only [renderField, hst, hend, Option.getD_none]
    rw [if_neg hv, if_neg hty, hml]
    simp [sub_self, habs0]
  rw [hred]
  simp

/-- Witness for C8's amended theorem at the concrete end-less multiline
field. -/
theorem C8_multiline_without_end_witness :
    ((renderField sampleSplit "Helvetica" 10 true 800 notesField).1).length
      = (sampleSplit notesField.value
          (resolve_font_name "Helvetica" (notesField.bold.getD true))
          (notesField.font_size.getD 10) 0).length
    ∧ (renderField sampleSplit "Helvetica" 10 true 800 notesField).2
        = [] :=
  C8_multiline_without_end sampleSplit "Helvetica" 10 true 800 notesField
    50 200 rfl (by decide) (by decide) rfl rfl

lemma enumFrom_map_snd_comp {α β : Type} (t : α → β) :
    ∀ (n : ℕ) (l : List α), (l.enumFrom n).map (fun p => t p.2) = l.map t := by
  intro n l
  induction l generalizing n with
  | nil => rfl
  | cons a l ih => simp [List.enumFrom, ih]

lemma enum_map_snd_comp {α β : Type} (t : α → β) (l : List α) :
    l.enum.map (fun p => t p.2) = l.map t :=
  enumFrom_map_snd_comp t 0 l

lemma enumFrom_map_snd {α : Type} :
    ∀ (n : ℕ) (l : List α), (l.enumFrom n).map Prod.snd = l := by
  intro n l
  induction l generalizing n with
  | nil => rfl
  | cons a l ih => simp [List.enumFrom, ih]

lemma enum_map_snd {α : Type} (l : List α) :
    l.enum.map Prod.snd = l :=
  enumFrom_map_snd 0 l

/-- Claim C10: for a field with non-empty value and present start, exactly
one drawing mode applies, by fixed precedence: a `checkbox`-typed field is
drawn as one bold-Helvetica draw of its value even if it also carries
multiline or spacing attributes; otherwise a truthy `multiline` field is
drawn as a prefix of the word-wrap output even if it carries a spacing
attribute; otherwise a truthy `spacing` field is drawn character by
character; otherwise (including spacing equal to `0`) the whole value is
drawn as one string. -/
theorem C10_dispatch_precedence
    (split : String → String → ℚ → ℚ → List String)
    (gf : String) (gs : ℚ) (gb : Bool) (h : ℚ) (f : Field) (x y : ℚ)
    (hst : f.start = some (x, y)) (hv : f.value ≠ "") :
    (f.type_.getD "text" = "checkbox" →
      (renderField split gf gs gb h f).1 =
        [{ x := x, y := h - y, text := f.value, font := "Helvetica-Bold",
           size := f.font_size.getD gs }]) ∧
    (f.type_.getD "text" ≠ "checkbox" → f.multiline = true →
      ∃ n, ((renderField split gf gs gb h f).1).map DrawOp.text =
        (split f.value (resolve_font_name gf (f.bold.getD gb))
          (f.font_size.getD gs)
          (pyAbs ((f.end_.getD (x, y)).1 - x))).take n) ∧
    (f.type_.getD "text" ≠ "checkbox" → f.multiline = false →
      truthy f.spacing = true →
      ((renderField split gf gs gb h f).1).map DrawOp.text =
        f.value.toList.map (fun c => String.singleton c)) ∧
    (f.type_.getD "text" ≠ "checkbox" → f.multiline = false →
      truthy f.spacing = false →
      (renderField split gf gs gb h f).1 =
        [{ x := x, y := h - y, text := f.value,
           font := resolve_font_name gf (f.bold.getD gb),
           size := f.font_size.getD gs }]) := by
  refine ⟨?_, ?_, ?_, ?_⟩
  · intro hcb
    simp only [renderField, hst]
    rw [if_neg hv, if_pos hcb]
  · intro hcb hml
    simp only [renderField, hst]
    rw [if_neg hv, if_neg hcb, hml]
    simp only [if_true]
    rw [List.map_map]
    exact ⟨_, enum_map_snd _⟩
  · intro hcb hml hsp
    simp only [renderField, hst]
    rw [if_neg hv, if_neg hcb, hml]
    simp only [Bool.false_eq_true, if_false]
    rw [if_pos hsp, List.map_map]
    exact enum_map_snd_comp (fun c => String.singleton c) _
  · intro hcb hml hsp
    simp only [renderField, hst]
    rw [if_neg hv, if_neg hcb, hml]
    simp only [Bool.false_eq_true, if_false]
    rw [if_neg (by rw [hsp]; exact Bool.false_ne_true)]

/-- Witness for C10 at a concrete checkbox field that also carries
multiline and spacing attributes: the checkbox mode wins. -/
theorem C10_dispatch_precedence_witness :
    (checkboxField.type_.getD "text" = "checkbox" →
      (renderField sampleSplit "Helvetica" 10 true 800 checkboxField).1 =
        [{ x := 80, y := 800 - 80, text := checkboxField.value,
           font := "Helvetica-Bold",
           size := checkboxField.font_size.getD 10 }]) ∧
    (checkboxField.type_.getD "text" ≠ "checkbox" →
      checkboxField.multiline = true →
      ∃ n, ((renderField sampleSplit "Helvetica" 10 true 800
          checkboxField).1).map DrawOp.text =
        (sampleSplit checkboxField.value
          (resolve_font_name "Helvetica" (checkboxField.bold.getD true))
          (checkboxField.font_size.getD 10)
          (pyAbs ((checkboxField.end_.getD (80, 80)).1 - 80))).take n) ∧
    (checkboxField.type_.getD "text" ≠ "checkbox" →
      checkboxField.multiline = false →
      truthy checkboxField.spacing = true →
      ((renderField sampleSplit "Helvetica" 10 true 800
          checkboxField).1).map DrawOp.text =
        checkboxField.value.toList.map (fun c => String.singleton c)) ∧
    (checkboxField.type_.getD "text" ≠ "checkbox" →
      checkboxField.multiline = false →
      truthy checkboxField.spacing = false →
      (renderField sampleSplit "Helvetica" 10 true 800 checkboxField).1 =
        [{ x := 80, y := 800 - 80, text := checkboxField.value,
           font := resolve_font_name "Helvetica" (checkboxField.bold.getD true),
           size := checkboxField.font_size.getD 10 }]) :=
  C10_dispatch_precedence sampleSplit "Helvetica" 10 true 800 checkboxField
    80 80 rfl (by decide)

lemma add_pages_length (pages : List Page) (overlay : Page) :
    (add_pages pages overlay).length = pages.length := by
  simp [add_pages]

lemma add_pages_getElem (pages : List Page) (overlay : Page) (i : ℕ)
    (hi : i < (add_pages pages overlay).length) (hi2 : i < pages.length)
    (hpos : 0 < i) :
    (add_pages pages overlay)[i] = pages[i] := by
  simp only [add_pages] at hi ⊢
  rw [List.getElem_map, List.getElem_enum]
  simp [Nat.pos_iff_ne_zero.1 hpos]

/-- Claim C5: for every successful fill, the output page count equals the
input page count, and every page after index 0 is the source page
unchanged — only the first page receives the overlay. -/
theorem C5_page_invariant
    (split : String → String → ℚ → ℚ → List String)
    (values : List (String × String)) (forms : List Form)
    (form_name : String) (pages : List Page) (pw ph : ℚ)
    (settings : Option PdfSettings) (out : List Page)
    (hout : fill_pdf_from_chatbot split values forms form_name pages
      pw ph settings = some out) :
    out.length = pages.length ∧
    ∀ i (hi : i < out.length) (hi2 : i < pages.length),
      0 < i → out[i] = pages[i] := by
  unfold fill_pdf_from_chatbot at hout
  cases hfind : (find_form forms form_name).bind Form.form_fields with
  | none =>
    rw [hfind] at hout
    cases hout
  | some fields =>
    rw [hfind] at hout
    simp only at hout
    by_cases hemp : fields.isEmpty
    · rw [if_pos hemp] at hout
      cases hout
    · rw [if_neg hemp] at hout
      injection hout with hout
      subst hout
      refine ⟨add_pages_length _ _, ?_⟩
      intro i hi hi2 hpos
      exact add_pages_getElem _ _ i hi hi2 hpos

/-- The filled output document of the concrete witness fill: page 0 with
the overlay merged on top of its original content, page 1 unchanged. -/
def filledPages : List Page :=
  [⟨[{ x := 1, y := 2, text := "p0", font := "Helvetica", size := 10 },
     { x := 100, y := 750, text := "12345", font := "Helvetica-Bold",
       size := 10 }]⟩,
   ⟨[{ x := 3, y := 4, text := "p1", font := "Helvetica", size := 10 }]⟩]

/-- Witness for C5: a concrete successful fill of the two-page document
against the one-form catalog. -/
theorem C5_page_invariant_witness :
    fill_pdf_from_chatbot sampleSplit [] payInCatalog "Pay-in-Slip"
      twoPages 600 800 none = some filledPages ∧
    filledPages.length = twoPages.length ∧
    ∀ i (hi : i < filledPages.length) (hi2 : i < twoPages.length),
      0 < i → filledPages[i] = twoPages[i] := by
  have hfill : fill_pdf_from_chatbot sampleSplit [] payInCatalog
      "Pay-in-Slip" twoPages 600 800 none = some filledPages := by
    simp [fill_pdf_from_chatbot, find_form, payInCatalog, List.find?,
      inject_values, dict_get, create_text_overlay, renderField, nameField,
      truthy, resolve_font_name, DEFAULT_FONT_FAMILY, DEFAULT_FONT_SIZE,
      DEFAULT_BOLD, add_pages, twoPages, merge_page, filledPages,
      List.enum, List.enumFrom]
    norm_num
  exact ⟨hfill,
    C5_page_invariant sampleSplit [] payInCatalog "Pay-in-Slip" twoPages
      600 800 none filledPages hfill⟩

/-- Claim C6: two sequential fills of the same form from the same
coordinates source with different values maps are independent — the
second fill's output equals a standalone fill with its own values map and
does not depend on the first fill's values map.  `load_field_coordinates`
re-reads and re-parses the coordinates file on every request and the file
is never written, so the in-place value injection mutates only objects
private to one request; the catalog state crossing requests is
unchanged. -/
theorem C6_no_cross_request_leak
    (split : String → String → ℚ → ℚ → List String)
    (catalog : List Form) (v1 v1' v2 : List (String × String))
    (form_name : String) (pages : List Page) (pw ph : ℚ)
    (settings : Option PdfSettings) :
    (two_fills split catalog v1 v2 form_name pages pw ph settings).2 =
      fill_pdf_from_chatbot split v2 catalog form_name pages pw ph
        settings ∧
    (two_fills split catalog v1 v2 form_name pages pw ph settings).2 =
      (two_fills split catalog v1' v2 form_name pages pw ph settings).2 :=
  ⟨rfl, rfl⟩

/-- Claim C9: a fill invoked with a form name matching no form in the
coordinates source (exact, case-sensitive comparison) produces no output
document. -/
theorem C9_form_not_found
    (split : String → String → ℚ → ℚ → List String)
    (values : List (String × String)) (forms : List Form)
    (form_name : String) (pages : List Page) (pw ph : ℚ)
    (settings : Option PdfSettings)
    (habs : ∀ form ∈ forms, form.form_name ≠ some form_name) :
    fill_pdf_from_chatbot split values forms form_name pages pw ph
      settings = none := by
  have hfind : find_form forms form_name = none := by
    rw [find_form, List.find?_eq_none]
    intro form hform
    simpa using habs form hform
  rw [fill_pdf_from_chatbot, hfind]
  rfl

/-- Witness for C9: looking up a form name absent from the concrete
catalog (differing only in case from the recorded name). -/
theorem C9_form_not_found_witness :
    (∀ form ∈ payInCatalog, form.form_name ≠ some "pay-in-slip") ∧
    fill_pdf_from_chatbot sampleSplit [] payInCatalog "pay-in-slip"
      twoPages 600 800 none = none :=
  ⟨by decide,
    C9_form_not_found sampleSplit [] payInCatalog "pay-in-slip" twoPages
      600 800 none (by decide)⟩

end BankForm
